import Mathlib

/-!
Shallow embedding of `src/Web_FInal_Assignment_project/views.py` (a Django
food/weight tracking application) together with the Django framework
behaviour those views rely on (`django.core.paginator.Paginator`,
`ListView` pagination, `login_required` / `LoginRequiredMixin`, and the
ORM's `filter` / `get` / `delete` / `create` operations).

The database is modelled as lists of rows kept in insertion order (the
default ordering the spec refers to).  Machine-level details (HTTP,
templates, file storage) are abstracted into result inductives that record
which template/redirect/exception a view produces.
-/

namespace FoodApp

/-! ## Data model (rows of models.py referenced by views.py) -/

/-- A `Food` row: primary key, unique-ish name used by `food_consumed`
lookups, and a foreign key to `FoodCategory`. -/
structure Food where
  id : Nat
  food_name : String
  category : Nat
deriving Repr, DecidableEq

/-- A `FoodCategory` row: primary key and the human-readable name used in
category URLs. -/
structure FoodCategory where
  id : Nat
  category_name : String
deriving Repr, DecidableEq

/-- An `Image` row: foreign key to its `Food` and the stored file reference. -/
structure Image where
  food : Nat
  image : String
deriving Repr, DecidableEq

/-- A `FoodLog` row: primary key, owning user and the consumed food. -/
structure FoodLog where
  id : Nat
  user : Nat
  food_consumed : Nat
deriving Repr, DecidableEq

/-- A `Weight` row: primary key, owning user, weight value and entry date
(kept as the submitted strings; their representation is irrelevant here). -/
structure Weight where
  id : Nat
  user : Nat
  weight : String
  entry_date : String
deriving Repr, DecidableEq

/-- The relational store: one list per table, in insertion order. -/
structure Store where
  foods : List Food
  categories : List FoodCategory
  images : List Image
  food_logs : List FoodLog
  weights : List Weight
deriving Repr, DecidableEq

/-! ## Django paginator semantics

`django.core.paginator.Paginator(object_list, per_page)` with the default
`orphans = 0`, `allow_empty_first_page = True`:
`num_pages = ceil(max(1, count) / per_page)`; `page(number)` first runs
`validate_number` (raising `PageNotAnInteger` when `int(number)` fails and
`EmptyPage` when the number is `< 1` or `> num_pages`) and then returns the
slice `object_list[(number-1)*per_page : number*per_page]` together with
the page number. -/

inductive PagError where
  | pageNotAnInteger
  | emptyPage
deriving Repr, DecidableEq

/-- `Paginator.num_pages`: `ceil(max(1, count) / per_page)`. -/
def num_pages (count per : Nat) : Nat :=
  (max 1 count + per - 1) / per

/-- The `Page` object for page `n`: its object list (the slice
`object_list[(n-1)*per : n*per]`) and its page number. -/
def pageSlice (items : List α) (per n : Nat) : List α × Nat :=
  ((items.drop ((n - 1) * per)).take per, n)

/-- `Paginator.validate_number` on an already-parsed integer: `EmptyPage`
below 1 or above `num_pages`.  (Django's escape hatch for `number == 1`
with `allow_empty_first_page` is unreachable because `num_pages ≥ 1`.) -/
def validate_number (np : Nat) (n : Int) : Except PagError Nat :=
  if n < 1 then .error .emptyPage
  else if (np : Int) < n then .error .emptyPage
  else .ok n.toNat

/-- One decimal digit, as accepted by Python `int`. -/
def digit? (c : Char) : Option Nat :=
  if '0' ≤ c ∧ c ≤ '9' then some (c.toNat - '0'.toNat) else none

def nat_of_digits_aux : List Char → Nat → Option Nat
  | [], acc => some acc
  | c :: cs, acc =>
    match digit? c with
    | some d => nat_of_digits_aux cs (acc * 10 + d)
    | none => none

/-- The value of a nonempty run of decimal digits. -/
def nat_of_digits : List Char → Option Nat
  | [] => none
  | cs => nat_of_digits_aux cs 0

/-- Python `int(s)` on a string: an optional sign followed by decimal
digits, `none` when the string does not parse (so `ValueError` is raised).
Pythonic trivia with no bearing on any claim — surrounding whitespace and
digit-group underscores — is not modelled. -/
def py_int? (s : String) : Option Int :=
  match s.data with
  | '-' :: rest => (nat_of_digits rest).map (fun n => -(n : Int))
  | '+' :: rest => (nat_of_digits rest).map (fun n => (n : Int))
  | l => (nat_of_digits l).map (fun n => (n : Int))

/-- The argument the views hand to `paginator.page`:
`request.GET.get('page', 1)` is the Python int `1` when the token is
absent, otherwise the raw query string, parsed by `int(...)` inside
`validate_number` (`PageNotAnInteger` when parsing fails). -/
def page_arg_int : Option String → Option Int
  | none => some 1
  | some s => py_int? s

/-- `paginator.page(page)` as called at views.py:111 and views.py:299. -/
def paginator_page (items : List α) (per : Nat) (tok : Option String) :
    Except PagError (List α × Nat) :=
  match page_arg_int tok with
  | none => .error .pageNotAnInteger
  | some n => (validate_number (num_pages items.length per) n).map (pageSlice items per)

/-- The manual `try/except` pagination of views.py:108-115 and
views.py:296-303: `PageNotAnInteger` falls back to `paginator.page(1)` and
`EmptyPage` to `paginator.page(paginator.num_pages)`; both fallbacks always
succeed because `num_pages ≥ 1`, so they are written as their slices. -/
def manual_pagination (items : List α) (per : Nat) (tok : Option String) :
    List α × Nat :=
  match paginator_page items per tok with
  | .ok r => r
  | .error .pageNotAnInteger => pageSlice items per 1
  | .error .emptyPage => pageSlice items per (num_pages items.length per)

/-- Django `MultipleObjectMixin.paginate_queryset`, run by
`super().get_context_data()` at views.py:96 because `FoodListView` sets
`paginate_by = 4`.  The page token is
`kwargs.get('page') or request.GET.get('page') or 1` (so an empty string
falls through to 1); a token that is neither an integer nor `'last'`
raises `Http404`, and an out-of-range integer raises `Http404` via
`InvalidPage`. -/
def paginate_queryset (items : List α) (per : Nat) (tok : Option String) :
    Except Unit (List α × Nat) :=
  let np := num_pages items.length per
  let pn : Option Int :=
    match tok with
    | none => some 1
    | some s =>
      if s = "" then some 1
      else
        match py_int? s with
        | some n => some n
        | none => if s = "last" then some (np : Int) else none
  match pn with
  | none => .error ()
  | some n =>
    match (validate_number np n).map (pageSlice items per) with
    | .ok r => .ok r
    | .error _ => .error ()

/-! ## Image attachment (views.py:99-101 and views.py:292-293)

`food.image = food.get_images.first()` attaches the first image of the
food under the related manager's default ordering (insertion order). -/

/-- `food.get_images`: the images whose foreign key is this food, in
default (insertion) order. -/
def get_images (st : Store) (f : Food) : List Image :=
  st.images.filter (fun im => im.food == f.id)

/-- A food object carrying the attached `.image` attribute. -/
structure FoodWithImage where
  food : Food
  image : Option Image
deriving Repr, DecidableEq

/-- `food.image = food.get_images.first()`. -/
def attach_first_image (st : Store) (f : Food) : FoodWithImage :=
  { food := f, image := (get_images st f).head? }

/-! ## FoodListView (views.py:88-117), reached from `index` -/

/-- The context data the index pagination produces: `foods_all` is the
local variable `foods` of `get_context_data` (the full, unpaginated,
image-attached set built at views.py:97-101) and `pages` is
`context['pages']`, sliced from it.  (The `context['foods']` entry set by
`super()` holds the framework's own page of separately fetched Food
instances and is not consulted by any claim, so it is not modelled.) -/
structure IndexContext where
  foods_all : List FoodWithImage
  pages : List FoodWithImage × Nat
deriving Repr, DecidableEq

inductive IndexResult where
  | http404
  | ok (ctx : IndexContext)
deriving Repr, DecidableEq

/-- `FoodListView.get`: `super().get_context_data()` paginates the
queryset itself (raising `Http404` on a bad page token) before the manual
attachment and pagination of views.py:97-115 run. -/
def food_list_get (st : Store) (tok : Option String) : IndexResult :=
  match paginate_queryset st.foods 4 tok with
  | .error _ => .http404
  | .ok _ =>
    let foods := st.foods.map (attach_first_image st)
    .ok { foods_all := foods, pages := manual_pagination foods 4 tok }

/-! ## category_details_view (views.py:280-311) -/

/-- The context rendered into `food_category.html`. -/
structure CategoryContext where
  foods : List FoodWithImage
  foods_count : Nat
  pages : List FoodWithImage × Nat
  title : String
deriving Repr, DecidableEq

inductive CategoryResult where
  | redirect_login
  | does_not_exist
  | multiple_returned
  | ok (ctx : CategoryContext)
deriving Repr, DecidableEq

/-- `category_details_view`: unauthenticated users are redirected to the
login page (views.py:286-287); `FoodCategory.objects.get(category_name=...)`
raises `DoesNotExist` on zero matches and `MultipleObjectsReturned` on
more than one (views.py:289); otherwise the category's foods get their
first image attached and are paginated 4 per page with the clamping
`try/except`. -/
def category_details_view (st : Store) (user : Option Nat)
    (category_name : String) (tok : Option String) : CategoryResult :=
  match user with
  | none => .redirect_login
  | some _ =>
    match st.categories.filter (fun c => c.category_name == category_name) with
    | [] => .does_not_exist
    | [cat] =>
      let foods := (st.foods.filter (fun f => f.category == cat.id)).map (attach_first_image st)
      .ok { foods := foods
            foods_count := foods.length
            pages := manual_pagination foods 4 tok
            title := cat.category_name }
    | _ => .multiple_returned

/-- Projection used to compare pagination outcomes of category pages. -/
def category_pages_of : CategoryResult → Option (List FoodWithImage × Nat)
  | .ok c => some c.pages
  | _ => none

/-- Projection used to compare pagination outcomes of the food index. -/
def index_pages_of : IndexResult → Option (List FoodWithImage × Nat)
  | .ok c => some c.pages
  | _ => none

/-! ## FoodDetailView (views.py:120-130) -/

inductive DetailResult where
  | redirect_login
  | http404
  | ok (food : Food) (images : List Image)
deriving Repr, DecidableEq

/-- `FoodDetailView.get`: `login_required` redirects unauthenticated
users; `DetailView.get_object` raises `Http404` when no Food has the
requested primary key; otherwise `food.html` is rendered with the food
and all its images. -/
def food_detail_get (st : Store) (user : Option Nat) (pk : Nat) : DetailResult :=
  match user with
  | none => .redirect_login
  | some _ =>
    match st.foods.filter (fun f => f.id == pk) with
    | [] => .http404
    | f :: _ => .ok f (get_images st f)

/-! ## FoodAddView (views.py:133-175) -/

/-- One form of the image formset (`modelformset_factory(Image,
form=ImageForm, extra=2)`): an untouched extra form validates with empty
`cleaned_data`; a populated form either fails validation or cleans to an
optional uploaded image. -/
inductive ImageSlot where
  | empty
  | invalid
  | valid (image : Option String)
deriving Repr, DecidableEq

def slot_is_valid : ImageSlot → Bool
  | .invalid => false
  | _ => true

def slot_invalid : ImageSlot → Bool
  | .invalid => true
  | _ => false

/-- A slot is populated when it carries an actual uploaded image
(`if image_data:` and `if image:` at views.py:158-160). -/
def slot_populated : ImageSlot → Bool
  | .valid (some _) => true
  | _ => false

/-- `image_form.is_valid()`: every member form validates. -/
def formset_is_valid (slots : List ImageSlot) : Bool :=
  slots.all slot_is_valid

/-- The `Image(food=new_food, image=image)` row saved for a slot, when the
slot holds an image (views.py:157-162). -/
def slot_image (fid : Nat) : ImageSlot → Option Image
  | .valid (some img) => some { food := fid, image := img }
  | _ => none

/-- A POST body for `FoodAddView.post`: whether `food_form.is_valid()`,
the food row `food_form.save` would produce, and the image formset. -/
structure FoodSubmission where
  food_valid : Bool
  new_food : Food
  slots : List ImageSlot
deriving Repr, DecidableEq

/-- Order of `save()` calls, to state that the food is saved before its
images. -/
inductive SaveEvent where
  | saved_food (id : Nat)
  | saved_image (food : Nat) (image : String)
deriving Repr, DecidableEq

inductive AddResponse where
  | redirect_login
  | rendered (success : Bool)
deriving Repr, DecidableEq

structure AddOutcome where
  store : Store
  events : List SaveEvent
  response : AddResponse
deriving Repr, DecidableEq

/-- `FoodAddView.post`: `LoginRequiredMixin` redirects unauthenticated
users; when both forms validate, the food is saved first and then one
image row per populated slot, each referencing the new food; otherwise
nothing is saved and the bound forms are re-rendered (with their errors,
modelled by `rendered false`). -/
def food_add_post (st : Store) (user : Option Nat) (sub : FoodSubmission) : AddOutcome :=
  match user with
  | none => { store := st, events := [], response := .redirect_login }
  | some _ =>
    if sub.food_valid && formset_is_valid sub.slots then
      let new_images := sub.slots.filterMap (slot_image sub.new_food.id)
      { store := { st with
          foods := st.foods ++ [sub.new_food]
          images := st.images ++ new_images }
        events := .saved_food sub.new_food.id
          :: new_images.map (fun im => .saved_image im.food im.image)
        response := .rendered true }
    else
      { store := st, events := [], response := .rendered false }

inductive AddGetResult where
  | redirect_login
  | rendered
deriving Repr, DecidableEq

/-- `FoodAddView.get`: redirect to login, or render blank forms. -/
def food_add_get (user : Option Nat) : AddGetResult :=
  match user with
  | none => .redirect_login
  | some _ => .rendered

/-! ## FoodLogView (views.py:178-206)

Note: `FoodLogView` carries no `LoginRequiredMixin` and no
`login_required` decorator, unlike every other user-specific view in this
file. -/

inductive FoodLogGetResult where
  | type_error
  | ok (foods : List Food) (user_food_log : List FoodLog)
deriving Repr, DecidableEq

/-- `FoodLogView.get`: `FoodLog.objects.filter(user=request.user)` at
views.py:187.  When the request is unauthenticated, `request.user` is
`AnonymousUser` and Django's ORM raises
`TypeError: Cannot query "AnonymousUser": Must be "User" instance`;
there is no login guard, so the request is never redirected to login. -/
def food_log_get (st : Store) (user : Option Nat) : FoodLogGetResult :=
  match user with
  | none => .type_error
  | some u => .ok st.foods (st.food_logs.filter (fun r => r.user == u))

inductive FoodLogPostResult where
  | redirect (target : String)
  | does_not_exist
  | multiple_returned
  | value_error
deriving Repr, DecidableEq

/-- Auto-increment primary key for a new `FoodLog` row. -/
def fresh_log_id (st : Store) : Nat :=
  st.food_logs.foldr (fun r acc => max r.id acc) 0 + 1

/-- `FoodLogView.post`: `request.POST.get('food_consumed')` is falsy when
absent or empty, in which case nothing is created and the view redirects
to `food_log`; otherwise `Food.objects.get(food_name=...)` raises
`DoesNotExist` on zero matches and `MultipleObjectsReturned` on several;
on a unique match `FoodLog.objects.create(user=request.user, ...)` saves a
new row (raising `ValueError: Cannot assign AnonymousUser` when the
request is unauthenticated, since this view has no login guard). -/
def food_log_post (st : Store) (user : Option Nat) (food_name : Option String) :
    Store × FoodLogPostResult :=
  match food_name with
  | none => (st, .redirect "food_log")
  | some name =>
    if name = "" then (st, .redirect "food_log")
    else
      match st.foods.filter (fun f => f.food_name == name) with
      | [] => (st, .does_not_exist)
      | [f] =>
        match user with
        | none => (st, .value_error)
        | some u =>
          ({ st with food_logs := st.food_logs
              ++ [{ id := fresh_log_id st, user := u, food_consumed := f.id }] },
           .redirect "food_log")
      | _ => (st, .multiple_returned)

/-! ## FoodLogDeleteView (views.py:209-225) and weight_log_delete
(views.py:254-268) -/

inductive DeleteResult where
  | redirect_login
  | redirect (target : String)
deriving Repr, DecidableEq

/-- `FoodLogDeleteView.post`: `LoginRequiredMixin` redirects
unauthenticated users; otherwise `FoodLog.objects.filter(id=food_id)` is
deleted when it is nonempty (the requesting user is never compared with
the row's owner), and the view redirects to `food_log` either way. -/
def food_log_delete_post (st : Store) (user : Option Nat) (food_id : Nat) :
    Store × DeleteResult :=
  match user with
  | none => (st, .redirect_login)
  | some _ =>
    let food_consumed := st.food_logs.filter (fun r => r.id == food_id)
    let st2 :=
      if food_consumed.isEmpty then st
      else { st with food_logs := st.food_logs.filter (fun r => r.id != food_id) }
    (st2, .redirect "food_log")

/-- `weight_log_delete` on POST: `login_required` redirects
unauthenticated users; otherwise `Weight.objects.filter(id=weight_id)` is
deleted (a queryset delete with no matches is a no-op and no ownership
check is made) and the view redirects to `weight_log`. -/
def weight_log_delete_post (st : Store) (user : Option Nat) (weight_id : Nat) :
    Store × DeleteResult :=
  match user with
  | none => (st, .redirect_login)
  | some _ =>
    ({ st with weights := st.weights.filter (fun r => r.id != weight_id) },
     .redirect "weight_log")

/-! ## weight_log_view (views.py:228-251) -/

inductive WeightViewResult where
  | redirect_login
  | ok (user_weight_log : List Weight)
deriving Repr, DecidableEq

/-- Auto-increment primary key for a new `Weight` row. -/
def fresh_weight_id (st : Store) : Nat :=
  st.weights.foldr (fun r acc => max r.id acc) 0 + 1

/-- `weight_log_view`: `login_required` redirects unauthenticated users;
a POST (carrying `weight` and `date` form values) appends a `Weight` row
for the requesting user; the user's weight log is then rendered. -/
def weight_log_view (st : Store) (user : Option Nat)
    (post : Option (String × String)) : Store × WeightViewResult :=
  match user with
  | none => (st, .redirect_login)
  | some u =>
    let st2 :=
      match post with
      | some (w, d) =>
        { st with weights := st.weights
            ++ [{ id := fresh_weight_id st, user := u, weight := w, entry_date := d }] }
      | none => st
    (st2, .ok (st2.weights.filter (fun r => r.user == u)))

/-! ## Concrete stores used for witnesses and counterexample evaluations -/

/-- The `fruit` category. -/
def catFruit : FoodCategory := { id := 0, category_name := "fruit" }

/-- A store with five foods in one category (two pages of four), two
images for the first food, and one log row and one weight row owned by
user 2. -/
def st5 : Store :=
  { foods := [{ id := 1, food_name := "apple", category := 0 },
              { id := 2, food_name := "banana", category := 0 },
              { id := 3, food_name := "cherry", category := 0 },
              { id := 4, food_name := "damson", category := 0 },
              { id := 5, food_name := "elderberry", category := 0 }]
    categories := [catFruit]
    images := [{ food := 1, image := "apple1.png" },
               { food := 1, image := "apple2.png" }]
    food_logs := [{ id := 6, user := 2, food_consumed := 1 }]
    weights := [{ id := 7, user := 2, weight := "70", entry_date := "2024-01-01" }] }

/-- A minimal store: one category, nothing else. -/
def stW : Store :=
  { foods := [], categories := [catFruit], images := [], food_logs := [], weights := [] }

/-! ## Helper lemmas -/

/-- Every outcome of the manual clamping pagination is some page's slice. -/
theorem manual_pagination_slices (items : List α) (per : Nat) (tok : Option String) :
    ∃ n, manual_pagination items per tok = pageSlice items per n := by
  unfold manual_pagination
  cases h : paginator_page items per tok with
  | ok r =>
    unfold paginator_page at h
    cases hp : page_arg_int tok with
    | none => rw [hp] at h; cases h
    | some n =>
      rw [hp] at h
      cases hv : validate_number (num_pages items.length per) n with
      | error e => simp [hv, Except.map] at h
      | ok m =>
        simp only [hv, Except.map, Except.ok.injEq] at h
        subst h
        exact ⟨m, rfl⟩
  | error e => cases e <;> exact ⟨_, rfl⟩

/-- In any mapped-attachment list, every element's `.image` is the head of
the default-ordered image list of its food. -/
theorem attach_all_first (st : Store) (l : List Food) :
    ((l.map (attach_first_image st)).all
      (fun fi => decide (fi.image = (st.images.filter (fun im => im.food == fi.food.id)).head?))) = true := by
  simp only [List.all_eq_true, List.mem_map]
  rintro fi ⟨f, _, rfl⟩
  simp [attach_first_image, get_images]

/-- Keeping the rows whose key differs from `i` is the identity when no
row has key `i`. -/
theorem filter_bne_eq_self {α : Type} (key : α → Nat) (l : List α) (i : Nat)
    (h : ∀ a ∈ l, key a ≠ i) : l.filter (fun a => key a != i) = l := by
  apply List.filter_eq_self.mpr
  intro a ha
  simpa using h a ha

/-- Selecting the rows whose key equals `i` yields nothing when no row has
key `i`. -/
theorem filter_beq_eq_nil {α : Type} (key : α → Nat) (l : List α) (i : Nat)
    (h : ∀ a ∈ l, key a ≠ i) : l.filter (fun a => key a == i) = [] := by
  apply List.filter_eq_nil_iff.mpr
  intro a ha
  simpa using h a ha

/-- One saved image row per populated slot. -/
theorem length_filterMap_slot_image (fid : Nat) (slots : List ImageSlot) :
    (slots.filterMap (slot_image fid)).length = slots.countP slot_populated := by
  induction slots with
  | nil => rfl
  | cons s t ih =>
    cases s with
    | empty =>
      simpa [slot_image, slot_populated, List.countP_cons] using ih
    | invalid =>
      simpa [slot_image, slot_populated, List.countP_cons] using ih
    | valid img =>
      cases img with
      | none => simpa [slot_image, slot_populated, List.countP_cons] using ih
      | some i => simp [slot_image, slot_populated, List.countP_cons, ih]

/-- A saved image row always references the food it was built for. -/
theorem slot_image_food {fid : Nat} {s : ImageSlot} {im : Image}
    (h : slot_image fid s = some im) : im.food = fid := by
  cases s with
  | empty => cases h
  | invalid => cases h
  | valid img =>
    cases img with
    | none => cases h
    | some i => cases h; rfl

/-- All image rows produced from a submission reference the new food. -/
theorem filterMap_slot_image_refs (fid : Nat) (slots : List ImageSlot) :
    ((slots.filterMap (slot_image fid)).all (fun im => im.food == fid)) = true := by
  simp only [List.all_eq_true, List.mem_filterMap]
  rintro im ⟨s, -, hs⟩
  simp [slot_image_food hs]

/-- A formset containing an invalid populated form does not validate. -/
theorem formset_is_valid_eq_false {slots : List ImageSlot}
    (h : slots.any slot_invalid = true) : formset_is_valid slots = false := by
  rcases List.any_eq_true.mp h with ⟨s, hs, hinv⟩
  by_contra hok
  have hall := List.all_eq_true.mp (Bool.of_not_eq_false hok) s hs
  cases s with
  | empty => exact absurd hinv (by simp [slot_invalid])
  | valid img => exact absurd hinv (by simp [slot_invalid])
  | invalid => simp [slot_is_valid] at hall

/-- A valid food submission with one populated image slot and one empty
extra slot. -/
def subW : FoodSubmission :=
  { food_valid := true
    new_food := { id := 9, food_name := "fig", category := 0 }
    slots := [.valid (some "fig.png"), .empty] }

/-- A submission whose second image slot is populated but invalid. -/
def subBad : FoodSubmission :=
  { food_valid := true
    new_food := { id := 9, food_name := "fig", category := 0 }
    slots := [.valid (some "fig.png"), .invalid] }

/-! ## Claim theorems -/

/-- C1: the claim says every paginated listing (food index and category
detail) clamps a page token beyond the last page to the last page and
never errors.  The category detail page does clamp (with five foods,
`num_pages = 2`, token `3` yields exactly the result of requesting the
last page `2`, and no error), but the food index raises `Http404` on the
same token, because `ListView`'s own pagination (`paginate_by = 4`) runs
in `super().get_context_data()` and raises before the clamping
`try/except` is reached.  This theorem evaluates both listings at that
failing input. -/
theorem C1_page_overflow :
    num_pages st5.foods.length 4 = 2 ∧
    food_list_get st5 (some "3") = .http404 ∧
    category_pages_of (category_details_view st5 (some 1) "fruit" (some "3"))
      = category_pages_of (category_details_view st5 (some 1) "fruit" (some "2")) ∧
    category_pages_of (category_details_view st5 (some 1) "fruit" (some "3")) ≠ none := by
  refine ⟨by decide, by decide, by decide, by decide⟩

/-- C2: the claim says every paginated listing treats a missing or
non-integer page token as page 1.  An absent token does default to page 1
on both listings, and the category detail page also maps a non-integer
token to page 1, but the food index raises `Http404` on a non-integer
token (again from `ListView`'s own pagination in
`super().get_context_data()`).  This theorem evaluates both listings at
that failing input. -/
theorem C2_page_default :
    food_list_get st5 (some "abc") = .http404 ∧
    food_list_get st5 none = food_list_get st5 (some "1") ∧
    food_list_get st5 none ≠ .http404 ∧
    category_details_view st5 (some 1) "fruit" (some "abc")
      = category_details_view st5 (some 1) "fruit" (some "1") ∧
    category_details_view st5 (some 1) "fruit" none
      = category_details_view st5 (some 1) "fruit" (some "1") := by
  refine ⟨by decide, by decide, by decide, by decide, by decide⟩

/-- C8: the claim says every unauthenticated request to a protected route
(food detail, food add, food-log list/create, log deletion, weight log,
category detail) redirects to the login page without changing state.
All of those routes except the food log do redirect with the store
untouched, but `FoodLogView` has no login guard: an unauthenticated GET
raises `TypeError` from the anonymous-user ORM query, an unauthenticated
POST naming a food raises `ValueError` at row creation, and an
unauthenticated POST without a food redirects to the food log itself,
never to the login page. -/
theorem C8_unauthenticated_access :
    food_log_get st5 none = .type_error ∧
    food_log_post st5 none (some "apple") = (st5, .value_error) ∧
    food_log_post st5 none none = (st5, .redirect "food_log") ∧
    food_detail_get st5 none 1 = .redirect_login ∧
    food_add_get none = .redirect_login ∧
    food_add_post st5 none subW
      = { store := st5, events := [], response := .redirect_login } ∧
    food_log_delete_post st5 none 6 = (st5, .redirect_login) ∧
    weight_log_view st5 none (some ("70", "2024-01-01")) = (st5, .redirect_login) ∧
    weight_log_delete_post st5 none 7 = (st5, .redirect_login) ∧
    category_details_view st5 none "fruit" none = .redirect_login := by
  refine ⟨by decide, by decide, by decide, by decide, by decide,
          by decide, by decide, by decide, by decide, by decide⟩

/-- C9: an authenticated request to the category detail page with a name
matching no `FoodCategory` row raises an unhandled `DoesNotExist` error:
no page is rendered and no redirect is issued. -/
theorem C9_category_missing (st : Store) (u : Nat) (name : String) (tok : Option String)
    (h : ∀ c ∈ st.categories, c.category_name ≠ name) :
    category_details_view st (some u) name tok = .does_not_exist := by
  have hnil : st.categories.filter (fun c => c.category_name == name) = [] := by
    apply List.filter_eq_nil_iff.mpr
    intro c hc
    simpa using h c hc
  simp [category_details_view, hnil]

/-- Witness for C9 at a concrete store and category name. -/
theorem C9_category_missing_witness :
    category_details_view stW (some 1) "veg" none = .does_not_exist :=
  C9_category_missing stW 1 "veg" none (by decide)

/-- C3: food creation is all-or-nothing.  When the primary food form or
any populated image slot fails validation, nothing is persisted (the
store is returned unchanged and no save event occurs) and the bound forms
are re-rendered with their errors. -/
theorem C3_food_add_atomic (st : Store) (u : Nat) (sub : FoodSubmission)
    (h : sub.food_valid = false ∨ sub.slots.any slot_invalid = true) :
    food_add_post st (some u) sub
      = { store := st, events := [], response := .rendered false } := by
  have hcond : (sub.food_valid && formset_is_valid sub.slots) = false := by
    rcases h with h | h
    · simp [h]
    · simp [formset_is_valid_eq_false h]
  simp [food_add_post, hcond]

/-- Witness for C3: a submission with an invalid populated slot persists
nothing. -/
theorem C3_food_add_atomic_witness :
    food_add_post st5 (some 1) subBad
      = { store := st5, events := [], response := .rendered false } :=
  C3_food_add_atomic st5 1 subBad (Or.inr (by decide))

/-- C4: a valid food submission with at most two slots, none invalid,
persists exactly the primary food row plus one image row per populated
slot; empty slots are skipped, each saved image references the new food,
the food's save event precedes every image save event, and nothing else
in the store changes. -/
theorem C4_food_add_success (st : Store) (u : Nat) (sub : FoodSubmission)
    (hf : sub.food_valid = true) (hs : formset_is_valid sub.slots = true)
    (hn : sub.slots.length ≤ 2) :
    (food_add_post st (some u) sub).store.foods = st.foods ++ [sub.new_food] ∧
    (food_add_post st (some u) sub).store.images
      = st.images ++ sub.slots.filterMap (slot_image sub.new_food.id) ∧
    (sub.slots.filterMap (slot_image sub.new_food.id)).length
      = sub.slots.countP slot_populated ∧
    ((sub.slots.filterMap (slot_image sub.new_food.id)).all
      (fun im => im.food == sub.new_food.id)) = true ∧
    (food_add_post st (some u) sub).events
      = .saved_food sub.new_food.id
        :: (sub.slots.filterMap (slot_image sub.new_food.id)).map
            (fun im => .saved_image im.food im.image) ∧
    (food_add_post st (some u) sub).response = .rendered true ∧
    (food_add_post st (some u) sub).store.food_logs = st.food_logs ∧
    (food_add_post st (some u) sub).store.weights = st.weights ∧
    (food_add_post st (some u) sub).store.categories = st.categories := by
  have hcond : (sub.food_valid && formset_is_valid sub.slots) = true := by
    simp [hf, hs]
  refine ⟨?_, ?_, length_filterMap_slot_image _ _, filterMap_slot_image_refs _ _,
          ?_, ?_, ?_, ?_, ?_⟩ <;> simp [food_add_post, hcond]

/-- Witness for C4: one populated slot and one empty slot. -/
theorem C4_food_add_success_witness :
    (food_add_post st5 (some 1) subW).store.foods = st5.foods ++ [subW.new_food] ∧
    (food_add_post st5 (some 1) subW).store.images
      = st5.images ++ subW.slots.filterMap (slot_image subW.new_food.id) ∧
    (subW.slots.filterMap (slot_image subW.new_food.id)).length
      = subW.slots.countP slot_populated ∧
    ((subW.slots.filterMap (slot_image subW.new_food.id)).all
      (fun im => im.food == subW.new_food.id)) = true ∧
    (food_add_post st5 (some 1) subW).events
      = .saved_food subW.new_food.id
        :: (subW.slots.filterMap (slot_image subW.new_food.id)).map
            (fun im => .saved_image im.food im.image) ∧
    (food_add_post st5 (some 1) subW).response = .rendered true ∧
    (food_add_post st5 (some 1) subW).store.food_logs = st5.food_logs ∧
    (food_add_post st5 (some 1) subW).store.weights = st5.weights ∧
    (food_add_post st5 (some 1) subW).store.categories = st5.categories :=
  C4_food_add_success st5 1 subW rfl (by decide) (by decide)

/-- C5: deleting a food-log or weight-log entry by an id that matches no
row is a silent no-op (the store is unchanged and the view redirects, no
error), and on any store a delete removes exactly the rows carrying the
requested id, touching nothing else. -/
theorem C5_log_delete (st st2 : Store) (u i : Nat)
    (hmiss : ∀ r ∈ st.food_logs, r.id ≠ i)
    (wmiss : ∀ r ∈ st.weights, r.id ≠ i) :
    food_log_delete_post st (some u) i = (st, .redirect "food_log") ∧
    weight_log_delete_post st (some u) i = (st, .redirect "weight_log") ∧
    (food_log_delete_post st2 (some u) i).1
      = { st2 with food_logs := st2.food_logs.filter (fun r => r.id != i) } ∧
    (food_log_delete_post st2 (some u) i).2 = .redirect "food_log" ∧
    (weight_log_delete_post st2 (some u) i).1
      = { st2 with weights := st2.weights.filter (fun r => r.id != i) } ∧
    (weight_log_delete_post st2 (some u) i).2 = .redirect "weight_log" := by
  refine ⟨?_, ?_, ?_, rfl, rfl, rfl⟩
  · have hf : st.food_logs.filter (fun r => r.id == i) = [] :=
      filter_beq_eq_nil (fun (r : FoodLog) => r.id) _ _ hmiss
    simp [food_log_delete_post, hf]
  · have hw : st.weights.filter (fun r => r.id != i) = st.weights :=
      filter_bne_eq_self (fun (r : Weight) => r.id) _ _ wmiss
    simp [weight_log_delete_post, hw]
  · unfold food_log_delete_post
    by_cases h : (st2.food_logs.filter (fun r => r.id == i)).isEmpty
    · have hnil : st2.food_logs.filter (fun r => r.id == i) = [] :=
        List.isEmpty_eq_true.mp h
      have hall : ∀ r ∈ st2.food_logs, r.id ≠ i := by
        intro r hr
        have := List.filter_eq_nil_iff.mp hnil r hr
        simpa using this
      have hself : st2.food_logs.filter (fun r => r.id != i) = st2.food_logs :=
        filter_bne_eq_self (fun (r : FoodLog) => r.id) _ _ hall
      simp [h, hself]
    · simp [h]

/-- Witness for C5 at a store whose log ids 6 and 7 differ from the
requested id 99. -/
theorem C5_log_delete_witness :
    food_log_delete_post st5 (some 1) 99 = (st5, .redirect "food_log") ∧
    weight_log_delete_post st5 (some 1) 99 = (st5, .redirect "weight_log") ∧
    (food_log_delete_post st5 (some 1) 99).1
      = { st5 with food_logs := st5.food_logs.filter (fun r => r.id != 99) } ∧
    (food_log_delete_post st5 (some 1) 99).2 = .redirect "food_log" ∧
    (weight_log_delete_post st5 (some 1) 99).1
      = { st5 with weights := st5.weights.filter (fun r => r.id != 99) } ∧
    (weight_log_delete_post st5 (some 1) 99).2 = .redirect "weight_log" :=
  C5_log_delete st5 st5 1 99 (by decide) (by decide)

/-- C6: log deletion never verifies ownership: for any authenticated
requesting user and any existing food-log or weight-log row owned by a
different user, a delete request naming the row's id removes the row and
the view redirects normally. -/
theorem C6_delete_ignores_ownership (st : Store) (u : Nat) (row : FoodLog) (w : Weight)
    (hrow : row ∈ st.food_logs) (hru : row.user ≠ u)
    (hw : w ∈ st.weights) (hwu : w.user ≠ u) :
    row ∉ (food_log_delete_post st (some u) row.id).1.food_logs ∧
    (food_log_delete_post st (some u) row.id).2 = .redirect "food_log" ∧
    w ∉ (weight_log_delete_post st (some u) w.id).1.weights ∧
    (weight_log_delete_post st (some u) w.id).2 = .redirect "weight_log" := by
  refine ⟨?_, rfl, ?_, rfl⟩
  · have hfilter : row ∈ st.food_logs.filter (fun r => r.id == row.id) :=
      List.mem_filter.mpr ⟨hrow, by simp⟩
    have hne : (st.food_logs.filter (fun r => r.id == row.id)).isEmpty = false := by
      rw [List.isEmpty_eq_false]
      exact List.ne_nil_of_mem hfilter
    unfold food_log_delete_post
    simp only [hne, Bool.false_eq_true, if_false]
    intro hmem
    have h2 := (List.mem_filter.mp hmem).2
    simp at h2
  · intro hmem
    have h2 := (List.mem_filter.mp hmem).2
    simp at h2

/-- Witness for C6: user 1 deletes rows owned by user 2. -/
theorem C6_delete_ignores_ownership_witness :
    ({ id := 6, user := 2, food_consumed := 1 } : FoodLog)
      ∉ (food_log_delete_post st5 (some 1) 6).1.food_logs ∧
    (food_log_delete_post st5 (some 1) 6).2 = .redirect "food_log" ∧
    ({ id := 7, user := 2, weight := "70", entry_date := "2024-01-01" } : Weight)
      ∉ (weight_log_delete_post st5 (some 1) 7).1.weights ∧
    (weight_log_delete_post st5 (some 1) 7).2 = .redirect "weight_log" :=
  C6_delete_ignores_ownership st5 1
    { id := 6, user := 2, food_consumed := 1 }
    { id := 7, user := 2, weight := "70", entry_date := "2024-01-01" }
    (by decide) (by decide) (by decide) (by decide)

/-- Characterization of a successful index request: the context is the
attached full set together with its manual pagination. -/
theorem food_list_get_ok {st : Store} {tok : Option String} {ctx : IndexContext}
    (h : food_list_get st tok = .ok ctx) :
    ctx = { foods_all := st.foods.map (attach_first_image st)
            pages := manual_pagination (st.foods.map (attach_first_image st)) 4 tok } := by
  unfold food_list_get at h
  cases hpq : paginate_queryset st.foods 4 tok with
  | error e => rw [hpq] at h; cases h
  | ok r => rw [hpq] at h; cases h; rfl

/-- Characterization of a successful category detail request when the
name matches exactly one category. -/
theorem category_details_view_ok {st : Store} {u : Nat} {name : String}
    {tok : Option String} {cctx : CategoryContext} {cat : FoodCategory}
    (hcat : st.categories.filter (fun c => c.category_name == name) = [cat])
    (h : category_details_view st (some u) name tok = .ok cctx) :
    cctx = { foods := (st.foods.filter (fun f => f.category == cat.id)).map
                        (attach_first_image st)
             foods_count := ((st.foods.filter (fun f => f.category == cat.id)).map
                        (attach_first_image st)).length
             pages := manual_pagination
                        ((st.foods.filter (fun f => f.category == cat.id)).map
                          (attach_first_image st)) 4 tok
             title := cat.category_name } := by
  unfold category_details_view at h
  rw [hcat] at h
  cases h
  rfl

/-- C7: in both paginated listings the representative first image is
attached to every item of the full unpaginated set (all foods for the
index; all foods of the category for a category page) and the shown page
is a slice of that attached set; the attached image is the head of the
food's image list under default ordering. -/
theorem C7_eager_attachment (st : Store) (tok tok2 : Option String) (u : Nat)
    (name : String) (ctx : IndexContext) (cctx : CategoryContext) (cat : FoodCategory)
    (h1 : food_list_get st tok = .ok ctx)
    (hcat : st.categories.filter (fun c => c.category_name == name) = [cat])
    (h2 : category_details_view st (some u) name tok2 = .ok cctx) :
    ctx.foods_all = st.foods.map (attach_first_image st) ∧
    (ctx.foods_all.all (fun fi =>
      decide (fi.image = (st.images.filter (fun im => im.food == fi.food.id)).head?))) = true ∧
    ctx.pages.1 = (ctx.foods_all.drop ((ctx.pages.2 - 1) * 4)).take 4 ∧
    cctx.foods
      = (st.foods.filter (fun f => f.category == cat.id)).map (attach_first_image st) ∧
    (cctx.foods.all (fun fi =>
      decide (fi.image = (st.images.filter (fun im => im.food == fi.food.id)).head?))) = true ∧
    cctx.pages.1 = (cctx.foods.drop ((cctx.pages.2 - 1) * 4)).take 4 := by
  obtain rfl := food_list_get_ok h1
  obtain rfl := category_details_view_ok hcat h2
  refine ⟨rfl, attach_all_first st st.foods, ?_,
          rfl, attach_all_first st (st.foods.filter (fun f => f.category == cat.id)), ?_⟩
  · obtain ⟨n, hn⟩ :=
      manual_pagination_slices (st.foods.map (attach_first_image st)) 4 tok
    simp only [hn]
    rfl
  · obtain ⟨n, hn⟩ :=
      manual_pagination_slices
        ((st.foods.filter (fun f => f.category == cat.id)).map (attach_first_image st)) 4 tok2
    simp only [hn]
    rfl

/-- The index context a pageless request on `stW` produces. -/
def ctxW : IndexContext :=
  { foods_all := [], pages := ([], 1) }

/-- The category context a pageless request on `stW` produces. -/
def cctxW : CategoryContext :=
  { foods := [], foods_count := 0, pages := ([], 1), title := "fruit" }

/-- Witness for C7 at the concrete store `stW`. -/
theorem C7_eager_attachment_witness :
    ctxW.foods_all = stW.foods.map (attach_first_image stW) ∧
    (ctxW.foods_all.all (fun fi =>
      decide (fi.image = (stW.images.filter (fun im => im.food == fi.food.id)).head?))) = true ∧
    ctxW.pages.1 = (ctxW.foods_all.drop ((ctxW.pages.2 - 1) * 4)).take 4 ∧
    cctxW.foods
      = (stW.foods.filter (fun f => f.category == catFruit.id)).map (attach_first_image stW) ∧
    (cctxW.foods.all (fun fi =>
      decide (fi.image = (stW.images.filter (fun im => im.food == fi.food.id)).head?))) = true ∧
    cctxW.pages.1 = (cctxW.foods.drop ((cctxW.pages.2 - 1) * 4)).take 4 :=
  C7_eager_attachment stW none none 1 "fruit" ctxW cctxW catFruit
    (by decide) (by decide) (by decide)

/-- C10: a food-log POST with an absent or empty `food_consumed` creates
no row and redirects normally; with a name matching no Food it raises an
unhandled `DoesNotExist` error and creates no row; and the log table can
only change when the submitted name matches an existing Food. -/
theorem C10_food_log_post (st : Store) (u u2 : Nat) (name nm : String)
    (hne : name ≠ "")
    (hmiss : ∀ f ∈ st.foods, f.food_name ≠ name)
    (hcr : (food_log_post st (some u2) (some nm)).1.food_logs ≠ st.food_logs) :
    food_log_post st (some u) none = (st, .redirect "food_log") ∧
    food_log_post st (some u) (some "") = (st, .redirect "food_log") ∧
    food_log_post st (some u) (some name) = (st, .does_not_exist) ∧
    st.foods.any (fun f => f.food_name == nm) = true := by
  have hnil : st.foods.filter (fun f => f.food_name == name) = [] := by
    apply List.filter_eq_nil_iff.mpr
    intro f hf
    simpa using hmiss f hf
  refine ⟨rfl, by simp [food_log_post], by simp [food_log_post, hne, hnil], ?_⟩
  by_contra hany
  have hall : ∀ f ∈ st.foods, f.food_name ≠ nm := by
    intro f hf heq
    exact hany (List.any_eq_true.mpr ⟨f, hf, by simp [heq]⟩)
  have hnil2 : st.foods.filter (fun f => f.food_name == nm) = [] := by
    apply List.filter_eq_nil_iff.mpr
    intro f hf
    simpa using hall f hf
  apply hcr
  by_cases hnm : nm = ""
  · simp [food_log_post, hnm]
  · simp [food_log_post, hnm, hnil2]

/-- Witness for C10: `"banana"` exists in `st5`, `"kiwi"` does not. -/
theorem C10_food_log_post_witness :
    food_log_post st5 (some 1) none = (st5, .redirect "food_log") ∧
    food_log_post st5 (some 1) (some "") = (st5, .redirect "food_log") ∧
    food_log_post st5 (some 1) (some "kiwi") = (st5, .does_not_exist) ∧
    st5.foods.any (fun f => f.food_name == "banana") = true :=
  C10_food_log_post st5 1 1 "kiwi" "banana" (by decide) (by decide) (by decide)

end FoodApp
